import Mathlib

/-!
A shallow embedding of the fusebill Go client library and theorems checking
its specification. The repository holds two revisions of the same package:
the current `fusebill.go` (embedded below in namespace `V2`) and an earlier
revision of that file (namespace `V1`). The HTTP transport is modeled as a
function from requests to outcomes (a `World`); every operation returns,
besides its Go results, the updated client state and the list of HTTP
requests it issued, so that "no network call is made" is a provable
statement. Go's `float64` amounts are modeled as `Rat` (only ordering,
equality and serialization of amounts matter to the client code; NaN
payloads never arise in the claims checked here). Go `error` values are
modeled by the inductive `GoErr`, one constructor per `errors.New` /
`fmt.Errorf` site, with `GoErr.message` producing the formatted text.
-/

/-- An HTTP response as seen by the client: status code and raw body text. -/
structure HttpResponse where
  statusCode : Nat
  body : String
deriving DecidableEq

/-- Go struct `WriteOff` (the JSON payload of a write-off request). It is
named `WriteOffData` here because the method `WriteOff` keeps the source
name; `float64` is modeled as `Rat`. -/
structure WriteOffData where
  InvoiceId : Int
  Amount : Rat
deriving DecidableEq

/-- The body of an outgoing HTTP request: empty (`nil` reader), a
form-encoded key/value list (`url.Values`, as posted by `PostForm`), or the
`json.Marshal` of a `WriteOffData` value. Carrying the structured data is
faithful: the wire bytes are a function of it. -/
inductive ReqBody where
  | empty : ReqBody
  | form : List (String × String) → ReqBody
  | json : WriteOffData → ReqBody
deriving DecidableEq

/-- An outgoing HTTP request: method, full URL, headers and body. -/
structure HttpRequest where
  method : String
  url : String
  headers : List (String × String)
  body : ReqBody
deriving DecidableEq

/-- The network, modeled as a function from requests to either a transport
error (`http.Client.Do` / `PostForm` returning a non-nil error) or a
response. -/
abbrev World := HttpRequest → Except String HttpResponse

/-- Go `error` values produced by the package, one constructor per
construction site. -/
inductive GoErr where
  | validationErr : String → Rat → GoErr
  | cookieJarUnset : GoErr
  | loginFailed : GoErr
  | writeOffFailed : Nat → String → GoErr
  | requestFailed : Nat → String → GoErr
  | jsonDecodeErr : String → GoErr
  | transport : String → GoErr
deriving DecidableEq

/-- Renders a rational with two decimal places, modeling `fmt`'s `%.2f`
verb on the amounts at hand (ties are rounded up; no claim depends on the
tie-breaking rule). -/
def fmt2 (q : Rat) : String :=
  let n : Int := Rat.floor (q * 100 + 1 / 2)
  let m : Nat := n.natAbs
  let frac : Nat := m % 100
  (if n < 0 then "-" else "") ++ toString (m / 100) ++ "." ++
    (if frac < 10 then "0" else "") ++ toString frac

/-- The message text of each Go error, following the `errors.New` and
`fmt.Errorf` / `fmt.Sprintf` format strings in the source. -/
def GoErr.message : GoErr → String
  | .validationErr invoiceID balance =>
      "Invoice " ++ invoiceID ++ ": outstandingBalance is " ++ fmt2 balance
  | .cookieJarUnset => "cookie jar should be set"
  | .loginFailed => "unable to login, check you login and password"
  | .writeOffFailed statusCode body =>
      "server returns " ++ toString statusCode ++ "; message " ++ body
  | .requestFailed statusCode body =>
      "Request failed with the status code: " ++ toString statusCode ++
        ", content: " ++ body
  | .jsonDecodeErr body => "json: cannot unmarshal " ++ body
  | .transport message => message

/-- Accumulates a run of decimal digits. -/
def digitsVal : List Char → Nat → Option Nat
  | [], acc => some acc
  | c :: rest, acc =>
      if c.isDigit then digitsVal rest (acc * 10 + (c.toNat - 48)) else none

/-- Models `strconv.Atoi`: `none` on a syntax error. Go's `Atoi` returns `0`
together with the error in that case; the call sites here discard the error,
so `(Atoi s).getD 0` is their observable behavior. (The 64-bit range check of
the Go function is not modeled; the claims only involve small inputs.) -/
def Atoi (s : String) : Option Int :=
  match s.data with
  | [] => none
  | '+' :: cs => if cs = [] then none else (digitsVal cs 0).map Int.ofNat
  | '-' :: cs =>
      if cs = [] then none else (digitsVal cs 0).map (fun n => -(n : Int))
  | cs => (digitsVal cs 0).map Int.ofNat

/-- The opening-brace character, `Char.ofNat 123`. -/
def lbrace : Char := Char.ofNat 123

/-- The closing-brace character, `Char.ofNat 125`. -/
def rbrace : Char := Char.ofNat 125

/-- Drops leading JSON whitespace. -/
def skipWs : List Char → List Char
  | [] => []
  | c :: cs =>
      if c = ' ' ∨ c = '\n' ∨ c = '\t' ∨ c = '\r' then skipWs cs else c :: cs

/-- Resolves a single-character JSON escape (`\n`, `\t`, `\r`, `\b`, `\f`;
quotes, backslashes and slashes map to themselves). -/
def unescape (c : Char) : Char :=
  if c = 'n' then '\n'
  else if c = 't' then '\t'
  else if c = 'r' then '\r'
  else if c = 'b' then Char.ofNat 8
  else if c = 'f' then Char.ofNat 12
  else c

/-- The value of a hexadecimal digit (lenient: other characters map to 0). -/
def hexVal (c : Char) : Nat :=
  if c.isDigit then c.toNat - 48
  else if 'a' ≤ c ∧ c ≤ 'f' then c.toNat - 87
  else if 'A' ≤ c ∧ c ≤ 'F' then c.toNat - 55
  else 0

/-- Parses the remainder of a JSON string literal (after the opening quote),
returning its characters and the input past the closing quote. -/
def parseStringRest : List Char → Option (List Char × List Char)
  | [] => none
  | '"' :: cs => some ([], cs)
  | '\\' :: 'u' :: h1 :: h2 :: h3 :: h4 :: cs =>
      (parseStringRest cs).map (fun r =>
        (Char.ofNat (hexVal h1 * 4096 + hexVal h2 * 256 + hexVal h3 * 16 + hexVal h4) :: r.1, r.2))
  | '\\' :: c :: cs =>
      (parseStringRest cs).map (fun r => (unescape c :: r.1, r.2))
  | c :: cs => (parseStringRest cs).map (fun r => (c :: r.1, r.2))

/-- Consumes a run of decimal digits, returning value, digit count, rest. -/
def takeDigits : List Char → Nat → Nat → Nat × Nat × List Char
  | [], acc, n => (acc, n, [])
  | c :: cs, acc, n =>
      if c.isDigit then takeDigits cs (acc * 10 + (c.toNat - 48)) (n + 1)
      else (acc, n, c :: cs)

/-- Parses an optional fractional part `.digits`. -/
def parseFrac : List Char → Option (Nat × Nat × List Char)
  | '.' :: rest =>
      let (v, n, r) := takeDigits rest 0 0
      if n = 0 then none else some (v, n, r)
  | cs => some (0, 0, cs)

/-- Parses a signed exponent value after the `e` marker. -/
def parseExpVal (cs : List Char) : Option (Int × List Char) :=
  let (neg, cs1) :=
    match cs with
    | '+' :: r => (false, r)
    | '-' :: r => (true, r)
    | _ => (false, cs)
  let (v, n, r) := takeDigits cs1 0 0
  if n = 0 then none else some (if neg then -(v : Int) else (v : Int), r)

/-- Parses an optional exponent part `e±digits`. -/
def parseExp : List Char → Option (Int × List Char)
  | 'e' :: rest => parseExpVal rest
  | 'E' :: rest => parseExpVal rest
  | cs => some (0, cs)

/-- Parses a JSON number into a rational: with integer digits `ip`,
fraction digits `fp` over `fc` places and exponent `ex`, the value is
`sign * (ip * 10^fc + fp) * 10^(max ex 0) / (10^fc * 10^(max (-ex) 0))`,
built with the core `Rat.divInt` so that concrete instances reduce in the
kernel. -/
def parseNumber (cs : List Char) : Option (Rat × List Char) :=
  let (neg, cs1) :=
    match cs with
    | '-' :: rest => (true, rest)
    | _ => (false, cs)
  let (ip, ic, cs2) := takeDigits cs1 0 0
  if ic = 0 then none
  else
    match parseFrac cs2 with
    | none => none
    | some (fp, fc, cs3) =>
      match parseExp cs3 with
      | none => none
      | some (ex, cs4) =>
        let numAbs : Nat := (ip * 10 ^ fc + fp) * 10 ^ ex.toNat
        let den : Nat := 10 ^ fc * 10 ^ (-ex).toNat
        let v : Rat :=
          Rat.divInt (if neg then -(numAbs : Int) else (numAbs : Int))
            (den : Int)
        some (v, cs4)

/-- JSON values, used to model `encoding/json`. -/
inductive Json where
  | null : Json
  | bool : Bool → Json
  | num : Rat → Json
  | str : String → Json
  | arr : List Json → Json
  | obj : List (String × Json) → Json

mutual

/-- Parses one JSON value, fuel-indexed to make recursion evidently
terminating. -/
def parseValue : Nat → List Char → Option (Json × List Char)
  | 0, _ => none
  | fuel + 1, cs =>
    match skipWs cs with
    | [] => none
    | '"' :: rest =>
        (parseStringRest rest).map (fun r => (.str (String.mk r.1), r.2))
    | 't' :: 'r' :: 'u' :: 'e' :: rest => some (.bool true, rest)
    | 'f' :: 'a' :: 'l' :: 's' :: 'e' :: rest => some (.bool false, rest)
    | 'n' :: 'u' :: 'l' :: 'l' :: rest => some (.null, rest)
    | c :: rest =>
        if c = lbrace then
          match skipWs rest with
          | [] => none
          | d :: rest2 =>
              if d = rbrace then some (.obj [], rest2)
              else
                (parseMembers fuel (d :: rest2) []).map
                  (fun r => (.obj r.1, r.2))
        else if c = '[' then
          match skipWs rest with
          | ']' :: rest2 => some (.arr [], rest2)
          | rest2 => (parseElems fuel rest2 []).map (fun r => (.arr r.1, r.2))
        else parseNumber (c :: rest) |>.map (fun r => (.num r.1, r.2))

/-- Parses the members of a JSON object after its opening brace. -/
def parseMembers : Nat → List Char → List (String × Json) →
    Option (List (String × Json) × List Char)
  | 0, _, _ => none
  | fuel + 1, cs, acc =>
    match skipWs cs with
    | '"' :: rest =>
        match parseStringRest rest with
        | none => none
        | some (key, rest2) =>
            match skipWs rest2 with
            | ':' :: rest3 =>
                match parseValue fuel rest3 with
                | none => none
                | some (v, rest4) =>
                    match skipWs rest4 with
                    | [] => none
                    | ',' :: rest5 =>
                        parseMembers fuel rest5 (acc ++ [(String.mk key, v)])
                    | d :: rest5 =>
                        if d = rbrace then
                          some (acc ++ [(String.mk key, v)], rest5)
                        else none
            | _ => none
    | _ => none

/-- Parses the elements of a JSON array after its opening bracket. -/
def parseElems : Nat → List Char → List Json →
    Option (List Json × List Char)
  | 0, _, _ => none
  | fuel + 1, cs, acc =>
    match parseValue fuel cs with
    | none => none
    | some (v, rest) =>
        match skipWs rest with
        | ',' :: rest2 => parseElems fuel rest2 (acc ++ [v])
        | ']' :: rest2 => some (acc ++ [v], rest2)
        | _ => none

end

/-- Parses a complete JSON document (the fuel bound is generous: every
recursive step consumes input). -/
def parseJson (s : String) : Option Json :=
  match parseValue (2 * s.length + 2) s.data with
  | some (v, rest) => if skipWs rest = [] then some v else none
  | none => none

/-- Go struct `Invoice`, tagged `json:"outstandingBalance"`. -/
structure Invoice where
  OutstandingBalance : Rat
deriving DecidableEq

/-- Lowercases an ASCII letter; `encoding/json` matches field names
case-insensitively. -/
def lowerChar (c : Char) : Char :=
  if 'A' ≤ c ∧ c ≤ 'Z' then Char.ofNat (c.toNat + 32) else c

/-- Case-insensitive match of an object key against the JSON tag
`outstandingBalance`. -/
def keyMatches (k : String) : Bool :=
  k.data.map lowerChar = "outstandingbalance".data

/-- Folds the members of a decoded JSON object into the `Invoice` struct the
way `encoding/json` fills struct fields: key matching is case-insensitive,
later duplicates overwrite, `null` leaves the field untouched, and a
non-number value for the field is a decode error. -/
def decodeInvoiceFields : List (String × Json) → Rat → Option Rat
  | [], acc => some acc
  | (k, v) :: rest, acc =>
      if keyMatches k then
        match v with
        | .num q => decodeInvoiceFields rest q
        | .null => decodeInvoiceFields rest acc
        | _ => none
      else decodeInvoiceFields rest acc

/-- Models `json.Unmarshal(body, &Invoice{})`: the zero-valued struct plus a
decode error when the body is not a JSON object with a well-typed
outstanding-balance member, the filled struct otherwise. (The embedding is
all-or-nothing: the partial fills Go's decoder can leave behind on an error
are not modeled; the specification treats JSON decoding as an opaque
dependency.) -/
def unmarshalInvoice (body : String) : Invoice × Option GoErr :=
  match parseJson body with
  | some (.obj fields) =>
      match decodeInvoiceFields fields 0 with
      | some q => ({ OutstandingBalance := q }, none)
      | none => ({ OutstandingBalance := 0 }, some (.jsonDecodeErr body))
  | _ => ({ OutstandingBalance := 0 }, some (.jsonDecodeErr body))

/-- Go struct `RequestDetails` (method, endpoint, body reader). -/
structure RequestDetails where
  Method : String
  Endpoint : String
  Body : ReqBody
deriving DecidableEq

/-- Go struct `Response` (raw body bytes as a string, status code). -/
structure Response where
  Body : String
  StatusCode : Nat
deriving DecidableEq

/-- The zero value `Response\x7b\x7d` returned by `SendRequest` on every
failure: nil body and status code 0. -/
def Response.zero : Response := { Body := "", StatusCode := 0 }

/-- The login request issued by `Client.PostForm(baseUrl+"/api/Login/",
data)` with the form-encoded credentials. -/
def loginPost (baseUrl username password : String) : HttpRequest :=
  { method := "POST"
    url := baseUrl ++ "/api/Login/"
    headers := [("Content-Type", "application/x-www-form-urlencoded")]
    body := .form [("username", username), ("password", password)] }

/-- The write-off request: POST of the `json.Marshal`ed payload to
`baseUrl+"/api/invoices/writeoff"` with a JSON content type. -/
def writeOffPost (baseUrl : String) (invoiceId : Int) (amount : Rat) :
    HttpRequest :=
  { method := "POST"
    url := baseUrl ++ "/api/invoices/writeoff"
    headers := [("Content-Type", "application/json")]
    body := .json { InvoiceId := invoiceId, Amount := amount } }

/-- The request `SendRequest` builds from its `RequestDetails`: host plus
endpoint, JSON content type and a basic-authorization header. -/
def apiRequest (host token : String) (r : RequestDetails) : HttpRequest :=
  { method := r.Method
    url := host ++ r.Endpoint
    headers := [("Content-Type", "application/json"),
                ("Authorization", "Basic " ++ token)]
    body := r.Body }

namespace V2

/-- Go struct `Credentials` of the current `fusebill.go` (username,
password, token). -/
structure Credentials where
  Username : String
  Password : String
  Token : String
deriving DecidableEq

/-- Go struct `Fusebill` of the current `fusebill.go`. The `*cookiejar.Jar`
field is `Option Unit`: only its nil-ness is ever observed by the code. The
`*http.Client` field carries no observable data here (the transport is the
`World`). -/
structure Fusebill where
  BaseUrl : String
  Credentials : Credentials
  cookieJar : Option Unit
deriving DecidableEq

/-- Method `login` of the current `fusebill.go`: errors when the cookie jar
is nil, otherwise posts the form-encoded credentials and maps a non-200
status to the authentication error. Returns (error, client state, issued
requests); the method never mutates the client. -/
def login (f : Fusebill) (w : World) :
    Option GoErr × Fusebill × List HttpRequest :=
  match f.cookieJar with
  | none => (some .cookieJarUnset, f, [])
  | some _ =>
    let req := loginPost f.BaseUrl f.Credentials.Username f.Credentials.Password
    match w req with
    | .error e => (some (.transport e), f, [req])
    | .ok resp =>
        if resp.statusCode = 200 then (none, f, [req])
        else (some .loginFailed, f, [req])

/-- Method `WriteOff` of the current `fusebill.go`: validates the amount,
logs in under the mutex, then posts the JSON payload (with
`strconv.Atoi`'s error discarded) and maps a non-200 status to an error
carrying status and body. -/
def WriteOff (f : Fusebill) (invoiceID : String) (balance : Rat)
    (w : World) : Option GoErr × Fusebill × List HttpRequest :=
  if balance ≤ 0 then (some (.validationErr invoiceID balance), f, [])
  else
    match login f w with
    | (some e, f1, tr) => (some e, f1, tr)
    | (none, f1, tr) =>
      let i := (Atoi invoiceID).getD 0
      let req := writeOffPost f.BaseUrl i balance
      match w req with
      | .error e => (some (.transport e), f1, tr ++ [req])
      | .ok resp =>
          if resp.statusCode = 200 then (none, f1, tr ++ [req])
          else (some (.writeOffFailed resp.statusCode resp.body), f1,
                tr ++ [req])

/-- Method `SendRequest` of the current `fusebill.go`: issues the authorized
request; on a non-200 status returns the zero `Response` plus an error
carrying status and body, on a 200 returns the raw body and status. -/
def SendRequest (f : Fusebill) (r : RequestDetails) (w : World) :
    Response × Option GoErr × List HttpRequest :=
  let req := apiRequest f.BaseUrl f.Credentials.Token r
  match w req with
  | .error e => (Response.zero, some (.transport e), [req])
  | .ok resp =>
      if resp.statusCode = 200 then
        ({ Body := resp.body, StatusCode := resp.statusCode }, none, [req])
      else
        (Response.zero, some (.requestFailed resp.statusCode resp.body),
         [req])

/-- Method `GetInvoiceBalance` of the current `fusebill.go`: GETs the
invoice, discards the `json.Unmarshal` error, and returns the decoded (or
zero) outstanding balance with a nil error. -/
def GetInvoiceBalance (f : Fusebill) (invoiceID : String) (w : World) :
    Rat × Option GoErr × List HttpRequest :=
  match SendRequest f { Method := "GET", Endpoint := "/invoices/" ++ invoiceID, Body := .empty } w with
  | (_, some e, tr) => (0, some e, tr)
  | (resp, none, tr) => ((unmarshalInvoice resp.Body).1.OutstandingBalance, none, tr)

/-- Function `NewClient` of the current `fusebill.go`: public-API client
with the `/v1` base URL and no cookie jar. -/
def NewClient (mode : String) (credentials : Credentials) : Fusebill :=
  { BaseUrl :=
      if mode = "production" then "https://secure.fusebill.com/v1"
      else "https://stg-secure.fusebill.com/v1"
    Credentials := credentials
    cookieJar := none }

/-- Function `NewPrivateClient` of the current `fusebill.go`: private-API
client whose cookie jar is created at construction and installed on the
HTTP client. -/
def NewPrivateClient (mode : String) (credentials : Credentials) :
    Fusebill :=
  { BaseUrl :=
      if mode = "production" then "https://secure.fusebill.com"
      else "https://stg-secure.fusebill.com"
    Credentials := credentials
    cookieJar := some () }

end V2

namespace V1

/-- Go struct `Credentials` of the earlier revision (no token field). -/
structure Credentials where
  Username : String
  Password : String
deriving DecidableEq

/-- Go struct `InteractionMode` of the earlier revision: public-API token
and host. -/
structure InteractionMode where
  Token : String
  ApiHost : String
deriving DecidableEq

/-- Go struct `Fusebill` of the earlier revision. -/
structure Fusebill where
  BaseUrl : String
  Mode : InteractionMode
  Credentials : Credentials
  cookieJar : Option Unit
deriving DecidableEq

/-- Method `login` of the earlier revision. It takes and returns the
package-global `client` variable (modeled, like the jar, as `Option Unit`:
nil-ness is all the code observes). If the jar is already present it returns
nil immediately; otherwise it first creates the jar and the global client
and only then posts the credentials, so the jar is set even when the post
fails. Returns (error, client state, global client, issued requests). -/
def login (f : Fusebill) (gc : Option Unit) (w : World) :
    Option GoErr × Fusebill × Option Unit × List HttpRequest :=
  match f.cookieJar with
  | some _ => (none, f, gc, [])
  | none =>
    let f1 : Fusebill := { f with cookieJar := some () }
    let gc1 : Option Unit := some ()
    let req := loginPost f.BaseUrl f.Credentials.Username f.Credentials.Password
    match w req with
    | .error e => (some (.transport e), f1, gc1, [req])
    | .ok resp =>
        if resp.statusCode = 200 then (none, f1, gc1, [req])
        else (some .loginFailed, f1, gc1, [req])

/-- Method `WriteOff` of the earlier revision: validates the amount, logs in
under the mutex, then posts the JSON payload through the global client. -/
def WriteOff (f : Fusebill) (gc : Option Unit) (invoiceID : String)
    (balance : Rat) (w : World) :
    Option GoErr × Fusebill × Option Unit × List HttpRequest :=
  if balance ≤ 0 then (some (.validationErr invoiceID balance), f, gc, [])
  else
    match login f gc w with
    | (some e, f1, gc1, tr) => (some e, f1, gc1, tr)
    | (none, f1, gc1, tr) =>
      let i := (Atoi invoiceID).getD 0
      let req := writeOffPost f.BaseUrl i balance
      match w req with
      | .error e => (some (.transport e), f1, gc1, tr ++ [req])
      | .ok resp =>
          if resp.statusCode = 200 then (none, f1, gc1, tr ++ [req])
          else (some (.writeOffFailed resp.statusCode resp.body), f1, gc1,
                tr ++ [req])

/-- Method `SendRequest` of the earlier revision: same logic as the current
one but addressed to `f.Mode.ApiHost` with `f.Mode.Token`. -/
def SendRequest (f : Fusebill) (r : RequestDetails) (w : World) :
    Response × Option GoErr × List HttpRequest :=
  let req := apiRequest f.Mode.ApiHost f.Mode.Token r
  match w req with
  | .error e => (Response.zero, some (.transport e), [req])
  | .ok resp =>
      if resp.statusCode = 200 then
        ({ Body := resp.body, StatusCode := resp.statusCode }, none, [req])
      else
        (Response.zero, some (.requestFailed resp.statusCode resp.body),
         [req])

/-- Method `GetInvoiceBalance` of the earlier revision (same body as the
current one). -/
def GetInvoiceBalance (f : Fusebill) (invoiceID : String) (w : World) :
    Rat × Option GoErr × List HttpRequest :=
  match SendRequest f { Method := "GET", Endpoint := "/invoices/" ++ invoiceID, Body := .empty } w with
  | (_, some e, tr) => (0, some e, tr)
  | (resp, none, tr) => ((unmarshalInvoice resp.Body).1.OutstandingBalance, none, tr)

/-- Function `NewClient` of the earlier revision: explicit base URL, mode
and credentials; no cookie jar. -/
def NewClient (baseUrl : String) (mode : InteractionMode)
    (credentials : Credentials) : Fusebill :=
  { BaseUrl := baseUrl
    Mode := mode
    Credentials := credentials
    cookieJar := none }

end V1

/-- Concrete credentials for the earlier revision, used in closed
instantiations. -/
def cred1 : V1.Credentials := { Username := "u", Password := "p" }

/-- A concrete interaction mode for the earlier revision. -/
def mode1 : V1.InteractionMode :=
  { Token := "tok", ApiHost := "https://api.example.com" }

/-- A concrete earlier-revision client (no cookie jar yet). -/
def fix1 : V1.Fusebill :=
  V1.NewClient "https://stg-secure.fusebill.com" mode1 cred1

/-- The same earlier-revision client after its jar has been created. -/
def fix1j : V1.Fusebill := { fix1 with cookieJar := some () }

/-- Concrete credentials for the current revision. -/
def cred2 : V2.Credentials := { Username := "u", Password := "p", Token := "tok" }

/-- A concrete current-revision private client (jar set at construction). -/
def fix2 : V2.Fusebill := V2.NewPrivateClient "production" cred2

/-- A concrete current-revision public client (no jar). -/
def fix2n : V2.Fusebill := V2.NewClient "production" cred2

/-- A network where every request fails at the transport level. -/
def wDown : World := fun _ => .error "connection refused"

/-- A network answering 200 with an empty body to every request. -/
def w200 : World := fun _ => .ok { statusCode := 200, body := "" }

/-- A network answering 500 to every request. -/
def w500 : World := fun _ => .ok { statusCode := 500, body := "oops" }

/-- C1: for every invoice ID and every amount ≤ 0, `WriteOff` (in both
revisions) returns the validation error immediately, issues no HTTP
request, and leaves the client state (and, in the earlier revision, the
package-global client) unchanged. -/
theorem claim_C1 (invoiceID : String) (balance : Rat) (h : balance ≤ 0)
    (f1 : V1.Fusebill) (gc : Option Unit) (f2 : V2.Fusebill) (w : World) :
    V1.WriteOff f1 gc invoiceID balance w =
      (some (.validationErr invoiceID balance), f1, gc, []) ∧
    V2.WriteOff f2 invoiceID balance w =
      (some (.validationErr invoiceID balance), f2, []) := by
  constructor <;> simp [V1.WriteOff, V2.WriteOff, h]

/-- Witness for C1 at amount 0 and invoice "123". -/
theorem claim_C1_witness :
    (0 : Rat) ≤ 0 ∧
    (V1.WriteOff fix1 none "123" 0 wDown =
       (some (.validationErr "123" 0), fix1, none, []) ∧
     V2.WriteOff fix2 "123" 0 wDown =
       (some (.validationErr "123" 0), fix2, [])) :=
  ⟨le_refl 0, claim_C1 "123" 0 (le_refl 0) fix1 none fix2 wDown⟩

/-- C2 counterexample: on the current revision a client whose cookie jar is
present (here a fresh `NewPrivateClient`) still posts the credentials on a
`login` call: against a 200-network the call issues exactly the login POST,
refuting "returns success immediately without posting credentials". -/
theorem claim_C2_cex :
    fix2.cookieJar.isSome = true ∧
    (V2.login fix2 w200).2.2 =
      [loginPost "https://secure.fusebill.com" "u" "p"] := by
  exact ⟨rfl, rfl⟩

/-- C2 (amended): in the earlier revision `login` is idempotent as claimed:
with the jar present it returns success immediately, issuing no request and
changing nothing; with no jar it posts exactly the form-encoded credentials,
and a non-200 status yields the authentication error. In the current
revision `login` posts the credentials on every call even when the jar is
present (the jar check is a precondition, not a skip), with the same
non-200 behavior. -/
theorem claim_C2 (w : World) :
    (∀ (f : V1.Fusebill) (gc : Option Unit) (j : Unit),
        f.cookieJar = some j → V1.login f gc w = (none, f, gc, [])) ∧
    (∀ (f : V1.Fusebill) (gc : Option Unit), f.cookieJar = none →
        (V1.login f gc w).2.2.2 =
          [loginPost f.BaseUrl f.Credentials.Username f.Credentials.Password] ∧
        ∀ r, w (loginPost f.BaseUrl f.Credentials.Username f.Credentials.Password) = .ok r →
          r.statusCode ≠ 200 → (V1.login f gc w).1 = some .loginFailed) ∧
    (∀ (f : V2.Fusebill) (j : Unit), f.cookieJar = some j →
        (V2.login f w).2.2 =
          [loginPost f.BaseUrl f.Credentials.Username f.Credentials.Password] ∧
        ∀ r, w (loginPost f.BaseUrl f.Credentials.Username f.Credentials.Password) = .ok r →
          r.statusCode ≠ 200 → (V2.login f w).1 = some .loginFailed) := by
  refine ⟨?_, ?_, ?_⟩
  · intro f gc j hj
    simp [V1.login, hj]
  · intro f gc hj
    refine ⟨?_, ?_⟩
    · simp only [V1.login, hj]
      cases hw : w (loginPost f.BaseUrl f.Credentials.Username f.Credentials.Password) with
      | error e => simp [hw]
      | ok resp => simp only [hw]; split <;> rfl
    · intro r hw hs
      simp [V1.login, hj, hw, hs]
  · intro f j hj
    refine ⟨?_, ?_⟩
    · simp only [V2.login, hj]
      cases hw : w (loginPost f.BaseUrl f.Credentials.Username f.Credentials.Password) with
      | error e => simp [hw]
      | ok resp => simp only [hw]; split <;> rfl
    · intro r hw hs
      simp [V2.login, hj, hw, hs]

/-- Witness for the amended C2, instantiated on concrete clients against the
all-500 network. -/
theorem claim_C2_witness :
    V1.login fix1j none w500 = (none, fix1j, none, []) ∧
    (V1.login fix1 none w500).2.2.2 =
      [loginPost "https://stg-secure.fusebill.com" "u" "p"] ∧
    (V1.login fix1 none w500).1 = some .loginFailed ∧
    (V2.login fix2 w500).2.2 =
      [loginPost "https://secure.fusebill.com" "u" "p"] ∧
    (V2.login fix2 w500).1 = some .loginFailed := by
  refine ⟨(claim_C2 w500).1 fix1j none () rfl,
          ((claim_C2 w500).2.1 fix1 none rfl).1,
          ((claim_C2 w500).2.1 fix1 none rfl).2 ⟨500, "oops"⟩ rfl (by decide),
          ((claim_C2 w500).2.2 fix2 () rfl).1,
          ((claim_C2 w500).2.2 fix2 () rfl).2 ⟨500, "oops"⟩ rfl (by decide)⟩

/-- C3 counterexample: in the earlier revision the first `login` call on a
jarless client against a 500-network fails with the authentication error
yet leaves the jar set (it is created before the credentials are posted);
and in the current revision `NewPrivateClient` creates the jar at
construction, before any login. Both refute "the jar is non-nil only after
a first successful login". -/
theorem claim_C3_cex :
    fix1.cookieJar = none ∧
    (V1.login fix1 none w500).1 = some GoErr.loginFailed ∧
    (V1.login fix1 none w500).2.1.cookieJar = some () ∧
    fix2.cookieJar = some () := by
  exact ⟨rfl, rfl, rfl, rfl⟩

/-- C3 (amended): in the earlier revision the jar is created by the first
`login` attempt whether or not it succeeds (after any `login` call the jar
is set), and a `login` with the jar already present changes nothing, so the
jar is never replaced once set. In the current revision `login` never
mutates the client, and `NewPrivateClient` creates the jar at
construction. -/
theorem claim_C3 (w : World) :
    (∀ (f : V1.Fusebill) (gc : Option Unit),
        ((V1.login f gc w).2.1.cookieJar).isSome = true) ∧
    (∀ (f : V1.Fusebill) (gc : Option Unit) (j : Unit),
        f.cookieJar = some j → V1.login f gc w = (none, f, gc, [])) ∧
    (∀ (f : V2.Fusebill), (V2.login f w).2.1 = f) ∧
    (∀ (mode : String) (c : V2.Credentials),
        (V2.NewPrivateClient mode c).cookieJar = some ()) := by
  refine ⟨?_, ?_, ?_, ?_⟩
  · intro f gc
    cases hj : f.cookieJar with
    | some j => simp [V1.login, hj]
    | none =>
        simp only [V1.login, hj]
        cases hw : w (loginPost f.BaseUrl f.Credentials.Username f.Credentials.Password) with
        | error e => simp [hw]
        | ok resp => simp only [hw]; split <;> rfl
  · intro f gc j hj
    simp [V1.login, hj]
  · intro f
    cases hj : f.cookieJar with
    | none => simp [V2.login, hj]
    | some j =>
        simp only [V2.login, hj]
        cases hw : w (loginPost f.BaseUrl f.Credentials.Username f.Credentials.Password) with
        | error e => simp [hw]
        | ok resp => simp only [hw]; split <;> rfl
  · intro mode c
    rfl

/-- Witness for the amended C3, instantiated on concrete clients against the
all-500 network. -/
theorem claim_C3_witness :
    ((V1.login fix1 none w500).2.1.cookieJar).isSome = true ∧
    V1.login fix1j none w500 = (none, fix1j, none, []) ∧
    (V2.login fix2 w500).2.1 = fix2 ∧
    (V2.NewPrivateClient "production" cred2).cookieJar = some () :=
  ⟨(claim_C3 w500).1 fix1 none,
   (claim_C3 w500).2.1 fix1j none () rfl,
   (claim_C3 w500).2.2.1 fix2,
   (claim_C3 w500).2.2.2 "production" cred2⟩

/-- C4: for every positive amount, when the network answers the login POST
with a non-200 status, `WriteOff` returns the authentication error and the
trace is exactly the login POST, so the write-off POST to
`/api/invoices/writeoff` is never sent. (Earlier revision started without a
jar, so its login actually posts; current revision with the jar present.) -/
theorem claim_C4 (amt : Rat) (hamt : 0 < amt) (invoiceID : String) (w : World)
    (f1 : V1.Fusebill) (gc : Option Unit) (f2 : V2.Fusebill) (j : Unit)
    (r1 r2 : HttpResponse)
    (h1jar : f1.cookieJar = none)
    (h1 : w (loginPost f1.BaseUrl f1.Credentials.Username f1.Credentials.Password) = .ok r1)
    (h1s : r1.statusCode ≠ 200)
    (h2jar : f2.cookieJar = some j)
    (h2 : w (loginPost f2.BaseUrl f2.Credentials.Username f2.Credentials.Password) = .ok r2)
    (h2s : r2.statusCode ≠ 200) :
    V1.WriteOff f1 gc invoiceID amt w =
      (some .loginFailed, { f1 with cookieJar := some () }, some (),
       [loginPost f1.BaseUrl f1.Credentials.Username f1.Credentials.Password]) ∧
    V2.WriteOff f2 invoiceID amt w =
      (some .loginFailed, f2,
       [loginPost f2.BaseUrl f2.Credentials.Username f2.Credentials.Password]) := by
  constructor
  · simp [V1.WriteOff, V1.login, h1jar, h1, h1s, not_le.mpr hamt]
  · simp [V2.WriteOff, V2.login, h2jar, h2, h2s, not_le.mpr hamt]

/-- Witness for C4: concrete clients against the all-500 network. -/
theorem claim_C4_witness :
    V1.WriteOff fix1 none "42" 1 w500 =
      (some .loginFailed, fix1j, some (),
       [loginPost "https://stg-secure.fusebill.com" "u" "p"]) ∧
    V2.WriteOff fix2 "42" 1 w500 =
      (some .loginFailed, fix2,
       [loginPost "https://secure.fusebill.com" "u" "p"]) :=
  claim_C4 1 (by decide) "42" w500 fix1 none fix2 ()
    ⟨500, "oops"⟩ ⟨500, "oops"⟩ rfl rfl (by decide) rfl rfl (by decide)

/-- C7: for every positive amount, a 200 login response followed by a 200
write-off response makes `WriteOff` return a nil error, in both revisions
(in the earlier revision for any jar state; in the current one with the jar
present). -/
theorem claim_C7 (amt : Rat) (hamt : 0 < amt) (invoiceID : String) (w : World)
    (f1 : V1.Fusebill) (gc : Option Unit) (f2 : V2.Fusebill) (j : Unit)
    (rl1 rw1 rl2 rw2 : HttpResponse)
    (h1l : w (loginPost f1.BaseUrl f1.Credentials.Username f1.Credentials.Password) = .ok rl1)
    (h1ls : rl1.statusCode = 200)
    (h1w : w (writeOffPost f1.BaseUrl ((Atoi invoiceID).getD 0) amt) = .ok rw1)
    (h1ws : rw1.statusCode = 200)
    (h2jar : f2.cookieJar = some j)
    (h2l : w (loginPost f2.BaseUrl f2.Credentials.Username f2.Credentials.Password) = .ok rl2)
    (h2ls : rl2.statusCode = 200)
    (h2w : w (writeOffPost f2.BaseUrl ((Atoi invoiceID).getD 0) amt) = .ok rw2)
    (h2ws : rw2.statusCode = 200) :
    (V1.WriteOff f1 gc invoiceID amt w).1 = none ∧
    (V2.WriteOff f2 invoiceID amt w).1 = none := by
  constructor
  · cases hj : f1.cookieJar with
    | some u => simp [V1.WriteOff, V1.login, hj, h1w, h1ws, not_le.mpr hamt]
    | none =>
        simp [V1.WriteOff, V1.login, hj, h1l, h1ls, h1w, h1ws, not_le.mpr hamt]
  · simp [V2.WriteOff, V2.login, h2jar, h2l, h2ls, h2w, h2ws, not_le.mpr hamt]

/-- Witness for C7: concrete clients against the all-200 network. -/
theorem claim_C7_witness :
    (V1.WriteOff fix1 none "42" 1 w200).1 = none ∧
    (V2.WriteOff fix2 "42" 1 w200).1 = none :=
  claim_C7 1 (by decide) "42" w200 fix1 none fix2 ()
    ⟨200, ""⟩ ⟨200, ""⟩ ⟨200, ""⟩ ⟨200, ""⟩
    rfl rfl rfl rfl rfl rfl rfl rfl rfl

/-- A concrete request description used in closed instantiations. -/
def reqD : RequestDetails :=
  { Method := "GET", Endpoint := "/invoices/1", Body := .empty }

/-- C5: for both revisions, when the network answers the request built by
`SendRequest` with a non-200 status, the call returns the zero `Response`
together with an error whose message contains the numeric status code and
the response body text (exhibited as explicit decompositions of the
message); on a 200 it returns the raw body and the status code with a nil
error. -/
theorem claim_C5 (f1 : V1.Fusebill) (f2 : V2.Fusebill) (r : RequestDetails)
    (w : World) (resp1 resp2 : HttpResponse)
    (h1 : w (apiRequest f1.Mode.ApiHost f1.Mode.Token r) = .ok resp1)
    (h2 : w (apiRequest f2.BaseUrl f2.Credentials.Token r) = .ok resp2) :
    (resp1.statusCode ≠ 200 →
       V1.SendRequest f1 r w =
         (Response.zero, some (.requestFailed resp1.statusCode resp1.body),
          [apiRequest f1.Mode.ApiHost f1.Mode.Token r]) ∧
       (∃ u v, (GoErr.requestFailed resp1.statusCode resp1.body).message =
          (u ++ toString resp1.statusCode) ++ v) ∧
       (∃ u, (GoErr.requestFailed resp1.statusCode resp1.body).message =
          u ++ resp1.body)) ∧
    (resp1.statusCode = 200 →
       V1.SendRequest f1 r w =
         ({ Body := resp1.body, StatusCode := resp1.statusCode }, none,
          [apiRequest f1.Mode.ApiHost f1.Mode.Token r])) ∧
    (resp2.statusCode ≠ 200 →
       V2.SendRequest f2 r w =
         (Response.zero, some (.requestFailed resp2.statusCode resp2.body),
          [apiRequest f2.BaseUrl f2.Credentials.Token r]) ∧
       (∃ u v, (GoErr.requestFailed resp2.statusCode resp2.body).message =
          (u ++ toString resp2.statusCode) ++ v) ∧
       (∃ u, (GoErr.requestFailed resp2.statusCode resp2.body).message =
          u ++ resp2.body)) ∧
    (resp2.statusCode = 200 →
       V2.SendRequest f2 r w =
         ({ Body := resp2.body, StatusCode := resp2.statusCode }, none,
          [apiRequest f2.BaseUrl f2.Credentials.Token r])) := by
  refine ⟨fun hs => ⟨?_, ?_, ?_⟩, fun hs => ?_, fun hs => ⟨?_, ?_, ?_⟩,
          fun hs => ?_⟩
  · simp [V1.SendRequest, h1, hs]
  · refine ⟨"Request failed with the status code: ",
            ", content: " ++ resp1.body, ?_⟩
    show (("Request failed with the status code: " ++
            toString resp1.statusCode) ++ ", content: ") ++ resp1.body = _
    exact String.append_assoc _ _ _
  · exact ⟨"Request failed with the status code: " ++
            toString resp1.statusCode ++ ", content: ", rfl⟩
  · simp [V1.SendRequest, h1, hs]
  · simp [V2.SendRequest, h2, hs]
  · refine ⟨"Request failed with the status code: ",
            ", content: " ++ resp2.body, ?_⟩
    show (("Request failed with the status code: " ++
            toString resp2.statusCode) ++ ", content: ") ++ resp2.body = _
    exact String.append_assoc _ _ _
  · exact ⟨"Request failed with the status code: " ++
            toString resp2.statusCode ++ ", content: ", rfl⟩
  · simp [V2.SendRequest, h2, hs]

/-- Witness for C5: the concrete clients against the all-500 and all-200
networks. -/
theorem claim_C5_witness :
    (V1.SendRequest fix1 reqD w500 =
       (Response.zero, some (.requestFailed 500 "oops"),
        [apiRequest "https://api.example.com" "tok" reqD]) ∧
     (∃ u v, (GoErr.requestFailed 500 "oops").message =
        (u ++ toString 500) ++ v) ∧
     (∃ u, (GoErr.requestFailed 500 "oops").message = u ++ "oops")) ∧
    (V2.SendRequest fix2 reqD w500 =
       (Response.zero, some (.requestFailed 500 "oops"),
        [apiRequest "https://secure.fusebill.com" "tok" reqD]) ∧
     (∃ u v, (GoErr.requestFailed 500 "oops").message =
        (u ++ toString 500) ++ v) ∧
     (∃ u, (GoErr.requestFailed 500 "oops").message = u ++ "oops")) ∧
    V1.SendRequest fix1 reqD w200 =
      ({ Body := "", StatusCode := 200 }, none,
       [apiRequest "https://api.example.com" "tok" reqD]) ∧
    V2.SendRequest fix2 reqD w200 =
      ({ Body := "", StatusCode := 200 }, none,
       [apiRequest "https://secure.fusebill.com" "tok" reqD]) :=
  ⟨(claim_C5 fix1 fix2 reqD w500 ⟨500, "oops"⟩ ⟨500, "oops"⟩ rfl rfl).1
     (by decide),
   (claim_C5 fix1 fix2 reqD w500 ⟨500, "oops"⟩ ⟨500, "oops"⟩ rfl rfl).2.2.1
     (by decide),
   (claim_C5 fix1 fix2 reqD w200 ⟨200, ""⟩ ⟨200, ""⟩ rfl rfl).2.1 rfl,
   (claim_C5 fix1 fix2 reqD w200 ⟨200, ""⟩ ⟨200, ""⟩ rfl rfl).2.2.2 rfl⟩

/-- C6: when `SendRequest` succeeds and the response body decodes as an
invoice with outstanding balance `x`, `GetInvoiceBalance` returns `x` with
a nil error, in both revisions. -/
theorem claim_C6 (invoiceID : String) (w : World)
    (f1 : V1.Fusebill) (f2 : V2.Fusebill) (x : Rat)
    (resp1 resp2 : Response) (tr1 tr2 : List HttpRequest)
    (h1 : V1.SendRequest f1 { Method := "GET", Endpoint := "/invoices/" ++ invoiceID, Body := .empty } w = (resp1, none, tr1))
    (hd1 : unmarshalInvoice resp1.Body = ({ OutstandingBalance := x }, none))
    (h2 : V2.SendRequest f2 { Method := "GET", Endpoint := "/invoices/" ++ invoiceID, Body := .empty } w = (resp2, none, tr2))
    (hd2 : unmarshalInvoice resp2.Body = ({ OutstandingBalance := x }, none)) :
    V1.GetInvoiceBalance f1 invoiceID w = (x, none, tr1) ∧
    V2.GetInvoiceBalance f2 invoiceID w = (x, none, tr2) := by
  constructor
  · simp [V1.GetInvoiceBalance, h1, hd1]
  · simp [V2.GetInvoiceBalance, h2, hd2]

/-- A network answering 200 with the specification's example invoice body
`\x7b"outstandingBalance": 42.5\x7d`. -/
def wInv : World :=
  fun _ => .ok { statusCode := 200, body := "\x7b\"outstandingBalance\": 42.5\x7d" }

/-- Witness for C6 on the specification's example body: the balance comes
back as 42.5 (written `Rat.divInt 85 2`, the core constructor that reduces
in the kernel) with a nil error. -/
theorem claim_C6_witness :
    V1.GetInvoiceBalance fix1 "7" wInv =
      (Rat.divInt 85 2, none, [apiRequest "https://api.example.com" "tok"
        { Method := "GET", Endpoint := "/invoices/7", Body := .empty }]) ∧
    V2.GetInvoiceBalance fix2 "7" wInv =
      (Rat.divInt 85 2, none, [apiRequest "https://secure.fusebill.com" "tok"
        { Method := "GET", Endpoint := "/invoices/7", Body := .empty }]) :=
  claim_C6 "7" wInv fix1 fix2 (Rat.divInt 85 2)
    ⟨"\x7b\"outstandingBalance\": 42.5\x7d", 200⟩
    ⟨"\x7b\"outstandingBalance\": 42.5\x7d", 200⟩
    [apiRequest "https://api.example.com" "tok"
      { Method := "GET", Endpoint := "/invoices/7", Body := .empty }]
    [apiRequest "https://secure.fusebill.com" "tok"
      { Method := "GET", Endpoint := "/invoices/7", Body := .empty }]
    rfl (by decide) rfl (by decide)

/-- When the unmarshal reports an error, the struct argument is left at its
zero value. -/
theorem unmarshal_fail_zero (b : String)
    (h : ((unmarshalInvoice b).2).isSome = true) :
    (unmarshalInvoice b).1 = { OutstandingBalance := 0 } := by
  unfold unmarshalInvoice at h ⊢
  cases hp : parseJson b with
  | none => simp [hp]
  | some v =>
    cases v with
    | null => simp [hp]
    | bool x => simp [hp]
    | num q => simp [hp]
    | str s => simp [hp]
    | arr xs => simp [hp]
    | obj fields =>
        cases hd : decodeInvoiceFields fields 0 with
        | none => simp [hp, hd]
        | some q => rw [hp] at h; simp [hd] at h

/-- C8: when `SendRequest` succeeds but the response body does not decode
as the Invoice shape, `GetInvoiceBalance` discards the decode error and
returns 0 with a nil error, in both revisions. -/
theorem claim_C8 (invoiceID : String) (w : World)
    (f1 : V1.Fusebill) (f2 : V2.Fusebill)
    (resp1 resp2 : Response) (tr1 tr2 : List HttpRequest)
    (h1 : V1.SendRequest f1 { Method := "GET", Endpoint := "/invoices/" ++ invoiceID, Body := .empty } w = (resp1, none, tr1))
    (hd1 : ((unmarshalInvoice resp1.Body).2).isSome = true)
    (h2 : V2.SendRequest f2 { Method := "GET", Endpoint := "/invoices/" ++ invoiceID, Body := .empty } w = (resp2, none, tr2))
    (hd2 : ((unmarshalInvoice resp2.Body).2).isSome = true) :
    V1.GetInvoiceBalance f1 invoiceID w = (0, none, tr1) ∧
    V2.GetInvoiceBalance f2 invoiceID w = (0, none, tr2) := by
  constructor
  · simp [V1.GetInvoiceBalance, h1, unmarshal_fail_zero _ hd1]
  · simp [V2.GetInvoiceBalance, h2, unmarshal_fail_zero _ hd2]

/-- A network answering 200 with a body that is not valid JSON. -/
def wBad : World := fun _ => .ok { statusCode := 200, body := "not json" }

/-- Witness for C8: a malformed body yields balance 0 with a nil error. -/
theorem claim_C8_witness :
    V1.GetInvoiceBalance fix1 "7" wBad =
      (0, none, [apiRequest "https://api.example.com" "tok"
        { Method := "GET", Endpoint := "/invoices/7", Body := .empty }]) ∧
    V2.GetInvoiceBalance fix2 "7" wBad =
      (0, none, [apiRequest "https://secure.fusebill.com" "tok"
        { Method := "GET", Endpoint := "/invoices/7", Body := .empty }]) :=
  claim_C8 "7" wBad fix1 fix2
    ⟨"not json", 200⟩ ⟨"not json", 200⟩
    [apiRequest "https://api.example.com" "tok"
      { Method := "GET", Endpoint := "/invoices/7", Body := .empty }]
    [apiRequest "https://secure.fusebill.com" "tok"
      { Method := "GET", Endpoint := "/invoices/7", Body := .empty }]
    rfl (by decide) rfl (by decide)

/-- C9: an invoice ID that does not parse as an integer is not rejected:
with a positive amount and a successful login, `WriteOff` still sends the
write-off POST serializing `invoiceId = 0` (the discarded `strconv.Atoi`
result), and the returned error is whatever the write-off response
dictates — in particular never the validation error. Both revisions. -/
theorem claim_C9 (invoiceID : String) (hid : Atoi invoiceID = none)
    (amt : Rat) (hamt : 0 < amt) (w : World)
    (f1 : V1.Fusebill) (gc : Option Unit) (f2 : V2.Fusebill) (j : Unit)
    (rl1 rl2 : HttpResponse)
    (h1jar : f1.cookieJar = none)
    (h1l : w (loginPost f1.BaseUrl f1.Credentials.Username f1.Credentials.Password) = .ok rl1)
    (h1ls : rl1.statusCode = 200)
    (h2jar : f2.cookieJar = some j)
    (h2l : w (loginPost f2.BaseUrl f2.Credentials.Username f2.Credentials.Password) = .ok rl2)
    (h2ls : rl2.statusCode = 200) :
    ((V1.WriteOff f1 gc invoiceID amt w).2.2.2 =
       [loginPost f1.BaseUrl f1.Credentials.Username f1.Credentials.Password,
        writeOffPost f1.BaseUrl 0 amt] ∧
     (V1.WriteOff f1 gc invoiceID amt w).1 ≠
       some (.validationErr invoiceID amt)) ∧
    ((V2.WriteOff f2 invoiceID amt w).2.2 =
       [loginPost f2.BaseUrl f2.Credentials.Username f2.Credentials.Password,
        writeOffPost f2.BaseUrl 0 amt] ∧
     (V2.WriteOff f2 invoiceID amt w).1 ≠
       some (.validationErr invoiceID amt)) := by
  have e1 : (Atoi invoiceID).getD 0 = 0 := by rw [hid]; rfl
  refine ⟨⟨?_, ?_⟩, ?_, ?_⟩
  · cases hw : w (writeOffPost f1.BaseUrl 0 amt) with
    | error e =>
        simp [V1.WriteOff, V1.login, h1jar, h1l, h1ls, e1,
              not_le.mpr hamt, hw]
    | ok resp =>
        by_cases hs : resp.statusCode = 200 <;>
          simp [V1.WriteOff, V1.login, h1jar, h1l, h1ls, e1,
                not_le.mpr hamt, hw, hs]
  · cases hw : w (writeOffPost f1.BaseUrl 0 amt) with
    | error e =>
        simp [V1.WriteOff, V1.login, h1jar, h1l, h1ls, e1,
              not_le.mpr hamt, hw]
    | ok resp =>
        by_cases hs : resp.statusCode = 200 <;>
          simp [V1.WriteOff, V1.login, h1jar, h1l, h1ls, e1,
                not_le.mpr hamt, hw, hs]
  · cases hw : w (writeOffPost f2.BaseUrl 0 amt) with
    | error e =>
        simp [V2.WriteOff, V2.login, h2jar, h2l, h2ls, e1,
              not_le.mpr hamt, hw]
    | ok resp =>
        by_cases hs : resp.statusCode = 200 <;>
          simp [V2.WriteOff, V2.login, h2jar, h2l, h2ls, e1,
                not_le.mpr hamt, hw, hs]
  · cases hw : w (writeOffPost f2.BaseUrl 0 amt) with
    | error e =>
        simp [V2.WriteOff, V2.login, h2jar, h2l, h2ls, e1,
              not_le.mpr hamt, hw]
    | ok resp =>
        by_cases hs : resp.statusCode = 200 <;>
          simp [V2.WriteOff, V2.login, h2jar, h2l, h2ls, e1,
                not_le.mpr hamt, hw, hs]

/-- Witness for C9 at the non-numeric invoice ID "abc" against the all-200
network. -/
theorem claim_C9_witness :
    ((V1.WriteOff fix1 none "abc" 1 w200).2.2.2 =
       [loginPost "https://stg-secure.fusebill.com" "u" "p",
        writeOffPost "https://stg-secure.fusebill.com" 0 1] ∧
     (V1.WriteOff fix1 none "abc" 1 w200).1 ≠
       some (.validationErr "abc" 1)) ∧
    ((V2.WriteOff fix2 "abc" 1 w200).2.2 =
       [loginPost "https://secure.fusebill.com" "u" "p",
        writeOffPost "https://secure.fusebill.com" 0 1] ∧
     (V2.WriteOff fix2 "abc" 1 w200).1 ≠
       some (.validationErr "abc" 1)) :=
  claim_C9 "abc" (by decide) 1 (by decide) w200 fix1 none fix2 ()
    ⟨200, ""⟩ ⟨200, ""⟩ rfl rfl rfl rfl rfl rfl

/-- C10: in the current revision `login` fails with the "cookie jar should
be set" error whenever the jar is nil; `NewClient` never sets the jar, so
every `WriteOff` with a positive amount on such a client fails before any
network call, while `NewPrivateClient` creates the jar at construction. -/
theorem claim_C10 (mode : String) (c : V2.Credentials) (invoiceID : String)
    (amt : Rat) (hamt : 0 < amt) (w : World) :
    (∀ f : V2.Fusebill, f.cookieJar = none →
        V2.login f w = (some .cookieJarUnset, f, [])) ∧
    (V2.NewClient mode c).cookieJar = none ∧
    V2.WriteOff (V2.NewClient mode c) invoiceID amt w =
      (some .cookieJarUnset, V2.NewClient mode c, []) ∧
    (V2.NewPrivateClient mode c).cookieJar = some () := by
  refine ⟨?_, rfl, ?_, rfl⟩
  · intro f hj
    simp [V2.login, hj]
  · simp [V2.WriteOff, V2.login, V2.NewClient, not_le.mpr hamt]

/-- Witness for C10: the concrete public client always fails before any
network traffic. -/
theorem claim_C10_witness :
    V2.login fix2n wDown = (some .cookieJarUnset, fix2n, []) ∧
    (V2.NewClient "production" cred2).cookieJar = none ∧
    V2.WriteOff (V2.NewClient "production" cred2) "1" 1 wDown =
      (some .cookieJarUnset, V2.NewClient "production" cred2, []) ∧
    (V2.NewPrivateClient "production" cred2).cookieJar = some () :=
  ⟨(claim_C10 "production" cred2 "1" 1 (by decide) wDown).1 fix2n rfl,
   (claim_C10 "production" cred2 "1" 1 (by decide) wDown).2.1,
   (claim_C10 "production" cred2 "1" 1 (by decide) wDown).2.2.1,
   (claim_C10 "production" cred2 "1" 1 (by decide) wDown).2.2.2⟩
